import Mathlib

/-!
Verification of the maize market automation pipeline
(`src/maize_automation.py`) against its specification.

The source is a single-shot Python pipeline:
`fetch_live_maize_data → create_structured_data → save_to_mongodb →
send_to_whatsapp`, orchestrated by `main`.

Modelling conventions (shallow embedding):
* Wall-clock instants are modelled abstractly as an integer count of
  seconds (`PyDatetime.t`).  Python's `strftime`/`isoformat` renderings
  are modelled as injective string encodings of that instant; no claim
  under verification depends on the concrete calendar format.  Naive
  `isoformat` strings of the same format compare lexicographically
  exactly as the instants compare chronologically, so MongoDB's `$lt`
  on the stored `timestamp` strings is modelled as `<` on the instants.
* Python `None` for the narrative is `Option.none`; a present narrative
  (possibly empty) is `Option.some`.
* The MongoDB collection is a list of documents; `replace_one(...,
  upsert=True)` replaces the first document with a matching `_id` and
  appends when there is none (`_id` uniqueness is the collection
  invariant `uniqueIds`).
* Exceptions inside `try` blocks are modelled by explicit fault flags:
  each fallible external call either completes or raises, and a raise
  transfers control to the `except` handler, which returns `False`.
-/

namespace Maize

/-! ## Python datetime model -/

/-- A Python `datetime` value: an instant (seconds) plus an optional
timezone.  `datetime.now()` called without an argument attaches no
timezone, so `tzinfo = none` means the value is timezone-naive. -/
structure PyDatetime where
  t : Int
  tzinfo : Option Int
deriving DecidableEq

/-- Model of `datetime.now()` with no `tz` argument: reads the wall
clock and returns a timezone-naive datetime. -/
def datetime_now (clock : Int) : PyDatetime :=
  { t := clock, tzinfo := none }

/-- A Python datetime is timezone-aware iff its `tzinfo` is not `None`. -/
def PyDatetime.isAware (d : PyDatetime) : Prop :=
  d.tzinfo ≠ none

instance (d : PyDatetime) : Decidable d.isAware := by
  unfold PyDatetime.isAware
  infer_instance

/-! ## Forecast generator (`generate_predictions`, lines 60-79) -/

/-- The `trend` label attached to a forecast point. -/
inductive Trend where
  | down
  | up
  | stable
deriving DecidableEq

/-- Line 76: `"down" if change < 0 else ("up" if change > 0 else "stable")`. -/
def trendOf (change : Int) : Trend :=
  if change < 0 then Trend.down else if change > 0 then Trend.up else Trend.stable

/-- One entry of the `predictions` list (lines 70-77).  The two
`strftime` date strings are both determined by `date`, modelled as the
day number `today + i + 1`. -/
structure PredPoint where
  day : Nat
  date : Nat
  price : Int
  change : Int
  trend : Trend
deriving DecidableEq

/-- The loop body of `generate_predictions` (lines 67-77): walk the
`changes` list keeping the running price `current` and the loop index
`i`, emitting one point per change. -/
def predLoop (today : Nat) (current : Int) (i : Nat) : List Int → List PredPoint
  | [] => []
  | change :: rest =>
    let cur := current + change
    { day := i + 1
    , date := today + (i + 1)
    , price := cur
    , change := change
    , trend := trendOf change } :: predLoop today cur (i + 1) rest

/-- Line 65: the hard-coded delta schedule. -/
def default_changes : List Int := [-15, -20, -25, -25, -20, -15, -10, -5, -5, 0]

/-- Model of `generate_predictions(base_price=1985)` (lines 60-79),
with the invocation date passed explicitly instead of read from the
clock. -/
def generate_predictions (today : Nat) (base_price : Int := 1985) : List PredPoint :=
  predLoop today base_price 0 default_changes

/-- Line 225 of `send_to_whatsapp`:
`total_change = sum(p['change'] for p in predictions)`. -/
def total_change (predictions : List PredPoint) : Int :=
  (predictions.map PredPoint.change).sum

/-! ## Report builder (`create_structured_data`, lines 81-183) -/

/-- One entry of `news_items` (lines 103-134). -/
structure NewsItem where
  id : Nat
  title : String
  date : String
  category : String
  impact : String
  severity : String
  explanation_hinglish : String
  price_effect : Int
deriving DecidableEq

/-- The `current_prices` sub-document (lines 93-99). -/
structure CurrentPrices where
  bihar_avg : Int
  purnea : Int
  indore : Int
  all_india_avg : Int
  unit : String
deriving DecidableEq

/-- The `market_sentiment` sub-document (lines 136-142). -/
structure MarketSentiment where
  overall : String
  strength : String
  confidence : Nat
  direction : String
  emoji : String
deriving DecidableEq

/-- The `recommendations.buyers` sub-document (lines 147-153). -/
structure BuyerRec where
  action : String
  action_hinglish : String
  reason : String
  target_price : Int
  target_date : String
deriving DecidableEq

/-- The `recommendations.sellers` sub-document (lines 154-159). -/
structure SellerRec where
  action : String
  action_hinglish : String
  reason : String
  alternative : String
deriving DecidableEq

/-- The `recommendations` sub-document (lines 146-160). -/
structure Recommendations where
  buyers : BuyerRec
  sellers : SellerRec
deriving DecidableEq

/-- The `factors` sub-document (lines 162-166). -/
structure Factors where
  bearish : List String
  bullish : List String
  neutral : List String
deriving DecidableEq

/-- The `metadata` sub-document (lines 175-180). -/
structure Metadata where
  report_version : String
  automation : String
  fetch_method : String
  runtime : String
deriving DecidableEq

/-- The report document assembled by `create_structured_data`
(lines 86-181).  String renderings of the creation instant
(`_id` from `strftime("%Y%m%d_%H%M%S")`, `timestamp` from
`isoformat()`, `date`, `time`, `day_of_week`) are modelled as
injective encodings of the instant: `_id` keeps second granularity and
`timestamp` keeps the chronological order of the isoformat strings, so
it is stored here as the instant itself. -/
structure Report where
  _id : String
  timestamp : Int
  date : String
  time : String
  day_of_week : String
  current_prices : CurrentPrices
  live_news_raw : Option String
  news_items : List NewsItem
  market_sentiment : MarketSentiment
  predictions_10_day : List PredPoint
  recommendations : Recommendations
  factors : Factors
  data_sources : List String
  metadata : Metadata
deriving DecidableEq

/-- Line 84: `timestamp = datetime.now()` — the creation instant the
builder stamps on the report. -/
def builder_now (clock : Int) : PyDatetime :=
  datetime_now clock

/-- Model of `strftime("%Y%m%d_%H%M%S")` on the creation instant
(line 87): an injective second-granularity encoding. -/
def report_id (d : PyDatetime) : String :=
  toString d.t

/-- Model of `strftime("%Y-%m-%d")` on the creation instant (line 89):
an encoding of the instant's day number. -/
def report_date (d : PyDatetime) : String :=
  toString (d.t / 86400)

/-- Model of `strftime("%H:%M:%S")` on the creation instant (line 90):
an encoding of the second within the day. -/
def report_time (d : PyDatetime) : String :=
  toString (d.t % 86400)

/-- Model of `strftime("%A")` on the creation instant (line 91): an
encoding of the day of the week. -/
def report_day_of_week (d : PyDatetime) : String :=
  toString ((d.t / 86400) % 7)

/-- Model of `create_structured_data(live_news)` (lines 81-183), with
the wall clock passed explicitly.  All content other than
`live_news_raw` and the timestamp-derived fields is the fixed data of
the source. -/
def create_structured_data (live_news : Option String) (clock : Int) (today : Nat) :
    Report :=
  let timestamp := builder_now clock
  { _id := report_id timestamp
  , timestamp := timestamp.t
  , date := report_date timestamp
  , time := report_time timestamp
  , day_of_week := report_day_of_week timestamp
  , current_prices :=
    { bihar_avg := 1985, purnea := 1970, indore := 1715
    , all_india_avg := 1950, unit := "INR/quintal" }
  , live_news_raw := live_news
  , news_items :=
    [ { id := 1, title := "US Duty-Free Imports Allowed", date := "2026-02-11"
      , category := "All India", impact := "down", severity := "high"
      , explanation_hinglish := "America se makka import bina tax ke ho raha hai. Local prices par heavy pressure padega."
      , price_effect := -100 }
    , { id := 2, title := "Old Stock Demand Low", date := "2026-02-10"
      , category := "All India", impact := "down", severity := "medium"
      , explanation_hinglish := "Purane makka ki demand kam hai. Traders nayi crop ka wait kar rahe."
      , price_effect := -50 }
    , { id := 3, title := "Ethanol Demand Strong", date := "2026-02-01"
      , category := "All India", impact := "up", severity := "medium"
      , explanation_hinglish := "125 LMT ethanol target hai. Regular demand support milega."
      , price_effect := 30 } ]
  , market_sentiment :=
    { overall := "bearish", strength := "strong", confidence := 85
    , direction := "down", emoji := "🔴" }
  , predictions_10_day := generate_predictions today 1985
  , recommendations :=
    { buyers :=
      { action := "wait"
      , action_hinglish := "ABHI MAT LO, 2-3 HAFTE WAIT KARO"
      , reason := "Price expected to drop ₹100-150 more"
      , target_price := 1900, target_date := "2026-02-25" }
    , sellers :=
      { action := "sell_if_urgent"
      , action_hinglish := "URGENT HAI TO ABHI BECH DO"
      , reason := "Price will decline, better to sell now than wait"
      , alternative := "Wait till March if can hold" } }
  , factors :=
    { bearish := ["US imports", "Low old stock demand", "Fresh arrivals"]
    , bullish := ["Ethanol demand", "Poultry industry"]
    , neutral := ["Weather normal"] }
  , data_sources :=
    [ "Perplexity AI (Live Search)", "Reuters India"
    , "APMC Mandi Data", "Commodity Market Reports" ]
  , metadata :=
    { report_version := "2.0", automation := "github_actions"
    , fetch_method := "perplexity_sonar_pro", runtime := "python_3.11" } }

/-- Python's `str.split(sep)` for a one-character separator, modelled
on the character list (used by the notifier for
`target_date.split('-')[2]`, line 250). -/
def py_split (sep : Char) (s : String) : List String :=
  (s.toList.splitOn sep).map List.asString

/-- The forecast price-chain invariant: each point's price is the
previous price plus the point's own delta, seeded at the base price. -/
def forecastChain : Int → List PredPoint → Prop
  | _, [] => True
  | prev, p :: rest => p.price = prev + p.change ∧ forecastChain p.price rest

instance : ∀ (b : Int) (l : List PredPoint), Decidable (forecastChain b l)
  | _, [] => .isTrue trivial
  | _, p :: rest =>
    have : Decidable (forecastChain p.price rest) := instDecidableForecastChain p.price rest
    instDecidableAnd

/-- Well-formedness of a Report, as the spec's data model demands it:
non-empty catalog of news items with unique ids and valid impact and
severity labels, a valid sentiment block with confidence in [0,100], a
10-point forecast with day indices 1..10 satisfying the price-chain
invariant seeded at the base price, non-empty provenance, and a
three-part (YYYY-MM-DD) buyer target date. -/
def ReportWellFormed (r : Report) : Prop :=
  r.news_items ≠ [] ∧
  (r.news_items.map NewsItem.id).Nodup ∧
  (∀ n ∈ r.news_items,
    n.impact ∈ (["up", "down", "neutral"] : List String) ∧
    n.severity ∈ (["low", "medium", "high"] : List String)) ∧
  r.market_sentiment.overall ∈ (["bullish", "bearish", "neutral"] : List String) ∧
  r.market_sentiment.confidence ≤ 100 ∧
  r.market_sentiment.direction ∈ (["up", "down", "stable"] : List String) ∧
  r.predictions_10_day.length = 10 ∧
  r.predictions_10_day.map PredPoint.day = [1, 2, 3, 4, 5, 6, 7, 8, 9, 10] ∧
  forecastChain r.current_prices.bihar_avg r.predictions_10_day ∧
  r.data_sources ≠ [] ∧
  (py_split '-' r.recommendations.buyers.target_date).length = 3

instance (r : Report) : Decidable (ReportWellFormed r) := by
  unfold ReportWellFormed
  infer_instance

/-! ## Report store (`save_to_mongodb`, lines 185-213) -/

/-- The MongoDB collection: a list of report documents.  MongoDB
enforces `_id` uniqueness, captured by the invariant `uniqueIds`. -/
abbrev Store := List Report

/-- The collection invariant: at most one document per `_id`. -/
def uniqueIds (s : Store) : Prop :=
  (s.map Report._id).Nodup

instance (s : Store) : Decidable (uniqueIds s) := by
  unfold uniqueIds
  infer_instance

/-- Lines 196-200: `collection.replace_one({"_id": data["_id"]}, data,
upsert=True)` — replace the (unique) document carrying the same `_id`
with `data` wholesale, or insert `data` when none exists. -/
def replace_one_upsert (data : Report) : Store → Store
  | [] => [data]
  | d :: rest =>
    if d._id = data._id then data :: rest
    else d :: replace_one_upsert data rest

/-- Lines 204-206: the retention sweep.  `cutoff = now - 30 days`;
every document whose `timestamp` is strictly below the cutoff is
deleted.  (The source compares naive `isoformat` strings with `$lt`;
for a fixed format their lexicographic order is the chronological
order of the instants, so the comparison is modelled on the instants.) -/
def prune (now : Int) (s : Store) : Store :=
  s.filter fun d => ! decide (d.timestamp < now - 30 * 86400)

/-- Which external calls inside `save_to_mongodb`'s `try` block raise:
the connection (line 191), the upsert (line 196), the retention delete
(line 206) and the connection close (line 208). -/
structure MongoFaults where
  connect_raises : Bool
  upsert_raises : Bool
  delete_raises : Bool
  close_raises : Bool
deriving DecidableEq

/-- Model of `save_to_mongodb(data)` (lines 185-213): upsert by `_id`,
then prune, then close; any raise jumps to the `except` handler, which
returns `False` while keeping whatever writes already happened. -/
def save_to_mongodb (data : Report) (now : Int) (f : MongoFaults) (s : Store) :
    Bool × Store :=
  if f.connect_raises then (false, s)
  else if f.upsert_raises then (false, s)
  else
    let s1 := replace_one_upsert data s
    if f.delete_raises then (false, s1)
    else
      let s2 := prune now s1
      if f.close_raises then (false, s2)
      else (true, s2)

/-! ## Notifier (`send_to_whatsapp`, lines 215-284) -/

/-- Python's `{n:+d}` format: an explicit sign before the decimal
digits (lines 258-262). -/
def fmtSigned (n : Int) : String :=
  if 0 ≤ n then "+" ++ toString n else toString n

/-- Python's `str.title()` applied to the one-word strength field
(line 242). -/
def pyTitle (s : String) : String :=
  s.capitalize

/-- The message construction of `send_to_whatsapp` (lines 223-274):
the list accesses `predictions[-1]`, `predictions[0]`, `predictions[4]`,
`predictions[9]` and `target_date.split('-')[2]` raise `IndexError`
when out of range (modelled as `none`, which the `except` handler turns
into a failed send); otherwise the f-string is assembled from the
report's structured fields.  The live narrative is never interpolated. -/
def render (data : Report) : Option String := do
  let predictions := data.predictions_10_day
  let pLast ← predictions.getLast?
  let final_price := pLast.price
  let tc := total_change predictions
  let p0 ← predictions[0]?
  let p4 ← predictions[4]?
  let p9 ← predictions[9]?
  let dd ← (py_split '-' data.recommendations.buyers.target_date)[2]?
  pure ("🌽 *MAKKA MANDI AUTOMATED REPORT*\n📅 " ++ data.date ++ " | " ++
    data.time ++ " IST\n\n━━━━━━━━━━━━━━━━━\n\n📍 *CURRENT PRICES*\n🔹 Bihar: ₹" ++
    toString data.current_prices.bihar_avg ++ "\n🔹 Purnea: ₹" ++
    toString data.current_prices.purnea ++ "\n🔹 All India: ₹" ++
    toString data.current_prices.all_india_avg ++
    "\n\n━━━━━━━━━━━━━━━━━\n\n📊 *MARKET SENTIMENT*\n" ++
    data.market_sentiment.emoji ++ " Direction: *" ++
    data.market_sentiment.direction.toUpper ++ "*\nConfidence: " ++
    toString data.market_sentiment.confidence ++ "%\nStrength: " ++
    pyTitle data.market_sentiment.strength ++
    "\n\n━━━━━━━━━━━━━━━━━\n\n💡 *RECOMMENDATIONS*\n\n🛒 *Buyers:* \n" ++
    data.recommendations.buyers.action_hinglish ++ "\nTarget: ₹" ++
    toString data.recommendations.buyers.target_price ++ " by " ++ dd ++
    " Feb\n\n📦 *Sellers:*\n" ++
    data.recommendations.sellers.action_hinglish ++
    "\n\n━━━━━━━━━━━━━━━━━\n\n📈 *10-DAY FORECAST*\nDay 1: ₹" ++
    toString p0.price ++ " (" ++ fmtSigned p0.change ++ ")\nDay 5: ₹" ++
    toString p4.price ++ " (" ++ fmtSigned p4.change ++ ")\nDay 10: ₹" ++
    toString final_price ++ " (" ++ fmtSigned p9.change ++
    ")\n\nTotal Expected Change: " ++ fmtSigned tc ++
    "\n\n━━━━━━━━━━━━━━━━━\n\n🌐 *View Full Dashboard:*\nhttps://your-app.vercel.app" ++
    "\n\n💾 *Data Status:* Saved to database" ++
    "\n\n━━━━━━━━━━━━━━━━━\n\n🤖 Automated by GitHub Actions\n⚡ Powered by Perplexity AI")

/-- Model of `send_to_whatsapp(data)` (lines 215-284): build the
message and dispatch it; a raise anywhere inside the `try` (message
construction, or the transport call whose outcome is `sendOk`) is
caught and turned into `False`. -/
def send_to_whatsapp (sendOk : Bool) (data : Report) : Bool :=
  match render data with
  | none => false
  | some _ => sendOk

/-! ## Orchestrator (`main`, lines 286-323) -/

/-- Python truthiness of the optional narrative, as `main` uses it on
line 312 (`'Success' if live_news else 'Fallback'`): `None` and the
empty string are falsy. -/
def py_truthy : Option String → Bool
  | none => false
  | some s => ! s.isEmpty

/-- The execution summary printed by `main` (lines 307-321):
per-step outcomes plus the overall verdict of line 318
(`if mongo_success and whatsapp_success`). -/
structure ExecSummary where
  fetch_ok : Bool
  store_ok : Bool
  notify_ok : Bool
  all_ok : Bool
deriving DecidableEq

/-- Model of `main()` (lines 286-323): fetch (its outcome is the
possibly-absent `live_news`), build, persist, notify — each step runs
unconditionally in sequence — then the summary.  Returns the summary,
the in-memory report, and the final store state. -/
def main_run (live_news : Option String) (clock : Int) (today : Nat)
    (now : Int) (faults : MongoFaults) (sendOk : Bool) (store : Store) :
    ExecSummary × Report × Store :=
  let structured_data := create_structured_data live_news clock today
  let mongo := save_to_mongodb structured_data now faults store
  let whatsapp_success := send_to_whatsapp sendOk structured_data
  ({ fetch_ok := py_truthy live_news
   , store_ok := mongo.1
   , notify_ok := whatsapp_success
   , all_ok := mongo.1 && whatsapp_success }, structured_data, mongo.2)

/-! ## Helper lemmas -/

theorem predLoop_length (today : Nat) (current : Int) (i : Nat) (D : List Int) :
    (predLoop today current i D).length = D.length := by
  induction D generalizing current i with
  | nil => rfl
  | cons c rest ih => simp [predLoop, ih]

theorem predLoop_getElem (today : Nat) (current : Int) (i : Nat) (D : List Int)
    (k : Nat) (h : k < D.length) :
    (predLoop today current i D)[k]? =
      some { day := i + k + 1
           , date := today + (i + k + 1)
           , price := current + (D.take (k + 1)).sum
           , change := D.get ⟨k, h⟩
           , trend := trendOf (D.get ⟨k, h⟩) } := by
  induction D generalizing current i k with
  | nil => exact absurd h (by simp)
  | cons c rest ih =>
    cases k with
    | zero =>
      simp [predLoop]
    | succ j =>
      have hj : j < rest.length := by simpa using h
      have := ih (current + c) (i + 1) j hj
      simp only [predLoop, List.getElem?_cons_succ, this, List.take_succ_cons,
        List.sum_cons, List.get_cons_succ]
      congr 2
      · omega
      · omega
      · ring

theorem mem_replace_one_upsert (data : Report) (s : Store) :
    data ∈ replace_one_upsert data s := by
  induction s with
  | nil => simp [replace_one_upsert]
  | cons d rest ih =>
    by_cases h : d._id = data._id <;> simp [replace_one_upsert, h, ih]

theorem replace_one_upsert_ids_subset (data : Report) (s : Store) :
    ∀ x ∈ (replace_one_upsert data s).map Report._id,
      x = data._id ∨ x ∈ s.map Report._id := by
  induction s with
  | nil => simp [replace_one_upsert]
  | cons d rest ih =>
    intro x hx
    by_cases h : d._id = data._id
    · simp only [replace_one_upsert, if_pos h, List.map_cons, List.mem_cons] at hx ⊢
      tauto
    · simp only [replace_one_upsert, if_neg h, List.map_cons, List.mem_cons] at hx ⊢
      rcases hx with hx | hx
      · tauto
      · rcases ih x hx with hx | hx <;> tauto

theorem replace_one_upsert_uniqueIds (data : Report) (s : Store)
    (h : uniqueIds s) : uniqueIds (replace_one_upsert data s) := by
  induction s with
  | nil => simp [replace_one_upsert, uniqueIds]
  | cons d rest ih =>
    rw [uniqueIds, List.map_cons, List.nodup_cons] at h
    obtain ⟨hd, hrest⟩ := h
    by_cases hid : d._id = data._id
    · rw [replace_one_upsert, if_pos hid, uniqueIds, List.map_cons, List.nodup_cons]
      exact ⟨hid ▸ hd, hrest⟩
    · rw [replace_one_upsert, if_neg hid, uniqueIds, List.map_cons, List.nodup_cons]
      refine ⟨fun hmem => ?_, ih hrest⟩
      rcases replace_one_upsert_ids_subset data rest d._id hmem with h | h
      · exact hid h
      · exact hd h

theorem replace_one_upsert_idem (data : Report) (s : Store) :
    replace_one_upsert data (replace_one_upsert data s) =
      replace_one_upsert data s := by
  induction s with
  | nil => simp [replace_one_upsert]
  | cons d rest ih =>
    by_cases h : d._id = data._id
    · simp [replace_one_upsert, h]
    · simp [replace_one_upsert, h, ih]

theorem replace_one_upsert_filter (data : Report) (s : Store)
    (h : uniqueIds s) :
    (replace_one_upsert data s).filter (fun d => d._id == data._id) = [data] := by
  induction s with
  | nil => simp [replace_one_upsert]
  | cons d rest ih =>
    rw [uniqueIds, List.map_cons, List.nodup_cons] at h
    obtain ⟨hd, hrest⟩ := h
    by_cases hid : d._id = data._id
    · rw [replace_one_upsert, if_pos hid]
      have hnone : rest.filter (fun d => d._id == data._id) = [] := by
        rw [List.filter_eq_nil_iff]
        intro a ha
        simp only [beq_iff_eq]
        intro hcontra
        exact hd (hid ▸ hcontra ▸ (List.mem_map_of_mem Report._id ha))
      simp [List.filter_cons, hnone]
    · rw [replace_one_upsert, if_neg hid]
      have : (d._id == data._id) = false := by simpa using hid
      simp [List.filter_cons, this, ih hrest]

theorem mem_prune (now : Int) (s : Store) (d : Report) :
    d ∈ prune now s ↔ d ∈ s ∧ now - 30 * 86400 ≤ d.timestamp := by
  simp only [prune, List.mem_filter, Bool.not_eq_eq_eq_not, Bool.not_true,
    decide_eq_false_iff_not, not_lt]

theorem prune_uniqueIds (now : Int) (s : Store) (h : uniqueIds s) :
    uniqueIds (prune now s) := by
  unfold uniqueIds at h ⊢
  unfold prune
  exact (List.Sublist.map Report._id (List.filter_sublist s)).nodup h

/-! ## The claims -/

/-- C1: For every base price B and every delta schedule D of length N,
the forecast generator returns a sequence of exactly N points in order
(point k carries day index k+1), where point k's price equals B plus
the sum of D[1..k], and point k's trend is "down" if D[k] < 0, "up" if
D[k] > 0, and "stable" if D[k] = 0. -/
theorem generate_predictions_spec (today : Nat) (B : Int) (D : List Int)
    (k : Nat) (h : k < D.length) :
    (predLoop today B 0 D).length = D.length ∧
    ∃ p, (predLoop today B 0 D)[k]? = some p ∧
      p.day = k + 1 ∧
      p.price = B + (D.take (k + 1)).sum ∧
      p.trend = (if D.get ⟨k, h⟩ < 0 then Trend.down
                 else if D.get ⟨k, h⟩ > 0 then Trend.up else Trend.stable) := by
  refine ⟨predLoop_length today B 0 D, ?_⟩
  refine ⟨_, predLoop_getElem today B 0 D k h, ?_, ?_, ?_⟩
  · simp
  · simp
  · rfl

/-- Witness for C1 at B = 1985 and the hard-coded schedule, k = 0. -/
theorem generate_predictions_spec_witness :
    (0 : Nat) < default_changes.length ∧
    ((predLoop 0 1985 0 default_changes).length = default_changes.length ∧
     ∃ p, (predLoop 0 1985 0 default_changes)[0]? = some p ∧
       p.day = 0 + 1 ∧
       p.price = 1985 + (default_changes.take (0 + 1)).sum ∧
       p.trend = (if default_changes.get ⟨0, by decide⟩ < 0 then Trend.down
                  else if default_changes.get ⟨0, by decide⟩ > 0 then Trend.up
                  else Trend.stable)) :=
  ⟨by decide, generate_predictions_spec 0 1985 default_changes 0 (by decide)⟩

/-- C2 counterexample: the claimed day-10 price 1835 and aggregate
change -150 are both false of the generated forecast (the schedule
sums to -140, so day 10 is 1845 and the aggregate is -140). -/
theorem scenario1_counterexample :
    ¬ (((generate_predictions 0 1985).map PredPoint.price).getLast? = some 1835 ∧
       total_change (generate_predictions 0 1985) = -150) := by
  decide

/-- C2 (corrected): with base price 1985 and the hard-coded schedule,
day-1 price is 1970 and day-10 price is 1845, and the aggregate change
computed by the notifier (the sum of all per-day deltas) is -140. -/
theorem scenario1_amended :
    ((generate_predictions 0 1985).map PredPoint.price).head? = some 1970 ∧
    ((generate_predictions 0 1985).map PredPoint.price).getLast? = some 1845 ∧
    total_change (generate_predictions 0 1985) = -140 := by
  decide

/-- C3: the report builder is total — for every narrative input (some
text, null, or the empty string) it returns a well-formed Report whose
live-narrative field is exactly the supplied input and whose id and
timestamp come from the creation instant; an absent narrative yields a
Report whose narrative field is null, not an error. -/
theorem create_structured_data_total (live_news : Option String) (clock : Int)
    (today : Nat) :
    ReportWellFormed (create_structured_data live_news clock today) ∧
    (create_structured_data live_news clock today).live_news_raw = live_news ∧
    (create_structured_data live_news clock today)._id =
      report_id (builder_now clock) ∧
    (create_structured_data live_news clock today).timestamp =
      (builder_now clock).t := by
  exact ⟨of_decide_eq_true rfl, rfl, rfl, rfl⟩

/-- C4: persisting upserts by id and is idempotent — after the upsert
the store holds exactly one document with the report's id, equal to
the report's latest contents (full replacement, no merge); upserting
the same report again changes nothing; and the at-most-one-document-
per-id invariant is preserved by the upsert and by the prune. -/
theorem persist_upsert_idempotent (data : Report) (s : Store) (now : Int)
    (h : uniqueIds s) :
    (replace_one_upsert data s).filter (fun d => d._id == data._id) = [data] ∧
    replace_one_upsert data (replace_one_upsert data s) =
      replace_one_upsert data s ∧
    uniqueIds (replace_one_upsert data s) ∧
    uniqueIds (prune now (replace_one_upsert data s)) :=
  ⟨replace_one_upsert_filter data s h,
   replace_one_upsert_idem data s,
   replace_one_upsert_uniqueIds data s h,
   prune_uniqueIds now _ (replace_one_upsert_uniqueIds data s h)⟩

/-- Witness for C4: the freshly built report upserted into the empty
store. -/
theorem persist_upsert_idempotent_witness :
    uniqueIds ([] : Store) ∧
    ((replace_one_upsert (create_structured_data none 0 0) []).filter
        (fun d => d._id == (create_structured_data none 0 0)._id) =
      [create_structured_data none 0 0] ∧
     replace_one_upsert (create_structured_data none 0 0)
        (replace_one_upsert (create_structured_data none 0 0) []) =
      replace_one_upsert (create_structured_data none 0 0) [] ∧
     uniqueIds (replace_one_upsert (create_structured_data none 0 0) []) ∧
     uniqueIds (prune 0 (replace_one_upsert (create_structured_data none 0 0) []))) :=
  ⟨by decide,
   persist_upsert_idempotent (create_structured_data none 0 0) [] 0 (by decide)⟩

/-- C5: the prune step with a 30-day retention deletes every stored
document whose timestamp is strictly older than `now` minus 30 days,
retains every document at or after that cutoff, and afterwards the
store contains no document older than the retention window. -/
theorem prune_retention (now : Int) (s : Store) :
    (∀ d, d ∈ s → d.timestamp < now - 30 * 86400 → d ∉ prune now s) ∧
    (∀ d, d ∈ s → now - 30 * 86400 ≤ d.timestamp → d ∈ prune now s) ∧
    (∀ d, d ∈ prune now s → now - 30 * 86400 ≤ d.timestamp) := by
  refine ⟨?_, ?_, ?_⟩
  · intro d _ hold hmem
    have := ((mem_prune now s d).mp hmem).2
    omega
  · intro d hd hfresh
    exact (mem_prune now s d).mpr ⟨hd, hfresh⟩
  · intro d hmem
    exact ((mem_prune now s d).mp hmem).2

/-- Witness for C5: with `now` 30 days after the epoch, a report built
at clock -1 (timestamp -1, older than the cutoff 0) is deleted and one
built at clock 0 (timestamp 0, on the cutoff) is retained. -/
theorem prune_retention_witness :
    create_structured_data none (-1) 0 ∈
      ([create_structured_data none (-1) 0, create_structured_data none 0 0] : Store) ∧
    (create_structured_data none (-1) 0).timestamp < 30 * 86400 - 30 * 86400 ∧
    create_structured_data none (-1) 0 ∉
      prune (30 * 86400)
        [create_structured_data none (-1) 0, create_structured_data none 0 0] ∧
    30 * 86400 - 30 * 86400 ≤ (create_structured_data none 0 0).timestamp ∧
    create_structured_data none 0 0 ∈
      prune (30 * 86400)
        [create_structured_data none (-1) 0, create_structured_data none 0 0] :=
  ⟨by decide, by decide,
   (prune_retention (30 * 86400)
       [create_structured_data none (-1) 0, create_structured_data none 0 0]).1
     _ (by decide) (by decide),
   by decide,
   (prune_retention (30 * 86400)
       [create_structured_data none (-1) 0, create_structured_data none 0 0]).2.1
     _ (by decide) (by decide)⟩

/-- C6: rendering the delivery message never fails on a well-formed
Report, whatever the live-narrative field holds, and the message is
identical whether the narrative is null or any text — it is built only
from the always-present structured fields, so a null narrative cannot
put an absent-marker into it. -/
theorem render_total_no_marker (r : Report) (h : ReportWellFormed r) (s : String) :
    (render r).isSome = true ∧
    render { r with live_news_raw := none } =
      render { r with live_news_raw := some s } := by
  refine ⟨?_, rfl⟩
  obtain ⟨-, -, -, -, -, -, hlen, -, -, -, hsplit⟩ := h
  have hne : r.predictions_10_day ≠ [] := by
    intro hcontra
    rw [hcontra] at hlen
    simp at hlen
  obtain ⟨pLast, hLast⟩ :=
    Option.isSome_iff_exists.mp (List.getLast?_isSome.mpr hne)
  have h0 := List.getElem?_eq_getElem (l := r.predictions_10_day) (n := 0) (by omega)
  have h4 := List.getElem?_eq_getElem (l := r.predictions_10_day) (n := 4) (by omega)
  have h9 := List.getElem?_eq_getElem (l := r.predictions_10_day) (n := 9) (by omega)
  have hdd := List.getElem?_eq_getElem
    (l := py_split '-' r.recommendations.buyers.target_date) (n := 2) (by omega)
  simp [render, hLast, h0, h4, h9, hdd]

/-- Witness for C6: the report built from a null narrative renders,
and renders the same as with a narrative present. -/
theorem render_total_no_marker_witness :
    ReportWellFormed (create_structured_data none 0 0) ∧
    ((render (create_structured_data none 0 0)).isSome = true ∧
     render { create_structured_data none 0 0 with live_news_raw := none } =
       render { create_structured_data none 0 0 with live_news_raw := some "" }) :=
  ⟨by decide, render_total_no_marker (create_structured_data none 0 0) (by decide) ""⟩

/-- C7: the orchestrator runs fetch → build → persist → notify in
sequence with no step's failure aborting a later step: persist and
notify both act on the same in-memory report whatever the other steps
did, the summary's overall verdict holds exactly when persist and
notify both returned true, and a failed narrative fetch alone only
degrades the fetch flag. -/
theorem main_pipeline (live_news : Option String) (clock : Int) (today : Nat)
    (now : Int) (faults : MongoFaults) (sendOk : Bool) (store : Store) :
    (main_run live_news clock today now faults sendOk store).2.1 =
      create_structured_data live_news clock today ∧
    (main_run live_news clock today now faults sendOk store).1.store_ok =
      (save_to_mongodb (create_structured_data live_news clock today)
        now faults store).1 ∧
    (main_run live_news clock today now faults sendOk store).2.2 =
      (save_to_mongodb (create_structured_data live_news clock today)
        now faults store).2 ∧
    (main_run live_news clock today now faults sendOk store).1.notify_ok =
      send_to_whatsapp sendOk (create_structured_data live_news clock today) ∧
    ((main_run live_news clock today now faults sendOk store).1.all_ok = true ↔
      ((main_run live_news clock today now faults sendOk store).1.store_ok = true ∧
       (main_run live_news clock today now faults sendOk store).1.notify_ok = true)) ∧
    (live_news = none →
      (main_run live_news clock today now faults sendOk store).1.fetch_ok = false) := by
  refine ⟨rfl, rfl, rfl, rfl, ?_, ?_⟩
  · simp [main_run]
  · rintro rfl
    rfl

/-- Witness for C7, end-to-end scenario 3: the store connection raises
(store=false) while the send succeeds (notify=true) on a run whose
fetch came back empty; the run still completes with a summary whose
overall verdict follows persist AND notify. -/
theorem main_pipeline_witness :
    ((main_run none 0 0 0 ⟨true, false, false, false⟩ true []).1.all_ok = true ↔
      ((main_run none 0 0 0 ⟨true, false, false, false⟩ true []).1.store_ok = true ∧
       (main_run none 0 0 0 ⟨true, false, false, false⟩ true []).1.notify_ok = true)) ∧
    (main_run none 0 0 0 ⟨true, false, false, false⟩ true []).1.fetch_ok = false ∧
    (main_run none 0 0 0 ⟨true, false, false, false⟩ true []).1.store_ok = false ∧
    (main_run none 0 0 0 ⟨true, false, false, false⟩ true []).1.notify_ok = true :=
  ⟨(main_pipeline none 0 0 0 ⟨true, false, false, false⟩ true []).2.2.2.2.1,
   (main_pipeline none 0 0 0 ⟨true, false, false, false⟩ true []).2.2.2.2.2 rfl,
   rfl, rfl⟩

/-- C8 counterexample: the creation instant stamped on the report is
`datetime.now()` with no timezone argument, hence timezone-naive — at
clock 0 the built report's timestamp comes from that instant, and the
instant is not timezone-aware. -/
theorem created_at_not_aware :
    (create_structured_data none 0 0).timestamp = (builder_now 0).t ∧
    ¬ (builder_now 0).isAware := by
  exact ⟨rfl, by decide⟩

/-- C8 (corrected): every Report's creation instant, as constructed by
the report builder, is timezone-naive — its `tzinfo` is `None`. -/
theorem created_at_naive (live_news : Option String) (clock : Int) (today : Nat) :
    (create_structured_data live_news clock today).timestamp =
      (builder_now clock).t ∧
    (builder_now clock).tzinfo = none :=
  ⟨rfl, rfl⟩

/-- C9: a false return from persist does not imply the report was not
stored — if the upsert completed and the retention delete (or the
close after a prune the report survives) raises, `save_to_mongodb`
returns false while the document remains in the store. -/
theorem persist_false_yet_stored (data : Report) (now : Int) (s : Store)
    (hfresh : now - 30 * 86400 ≤ data.timestamp) :
    ((save_to_mongodb data now ⟨false, false, true, false⟩ s).1 = false ∧
     data ∈ (save_to_mongodb data now ⟨false, false, true, false⟩ s).2) ∧
    ((save_to_mongodb data now ⟨false, false, false, true⟩ s).1 = false ∧
     data ∈ (save_to_mongodb data now ⟨false, false, false, true⟩ s).2) := by
  refine ⟨⟨rfl, ?_⟩, ⟨rfl, ?_⟩⟩
  · simpa [save_to_mongodb] using mem_replace_one_upsert data s
  · show data ∈ prune now (replace_one_upsert data s)
    exact (mem_prune now (replace_one_upsert data s) data).mpr
      ⟨mem_replace_one_upsert data s, hfresh⟩

/-- Witness for C9: the report built at clock 0, with `now` also 0. -/
theorem persist_false_yet_stored_witness :
    (0 : Int) - 30 * 86400 ≤ (create_structured_data none 0 0).timestamp ∧
    (((save_to_mongodb (create_structured_data none 0 0) 0
          ⟨false, false, true, false⟩ []).1 = false ∧
      create_structured_data none 0 0 ∈
        (save_to_mongodb (create_structured_data none 0 0) 0
          ⟨false, false, true, false⟩ []).2) ∧
     ((save_to_mongodb (create_structured_data none 0 0) 0
          ⟨false, false, false, true⟩ []).1 = false ∧
      create_structured_data none 0 0 ∈
        (save_to_mongodb (create_structured_data none 0 0) 0
          ⟨false, false, false, true⟩ []).2)) :=
  ⟨by decide,
   persist_false_yet_stored (create_structured_data none 0 0) 0 [] (by decide)⟩

/-- C10: the rendered message never depends on the live narrative —
for every report it is unchanged by replacing the narrative field with
anything else — while the narrative does reach the persisted document
unchanged: the built report carries it and is stored by the upsert. -/
theorem narrative_only_persisted (r : Report) (x : Option String)
    (narrative : Option String) (clock : Int) (today : Nat) (s : Store) :
    render { r with live_news_raw := x } =
      render { r with live_news_raw := none } ∧
    (create_structured_data narrative clock today).live_news_raw = narrative ∧
    create_structured_data narrative clock today ∈
      replace_one_upsert (create_structured_data narrative clock today) s :=
  ⟨rfl, rfl, mem_replace_one_upsert _ _⟩

end Maize
